import Mathlib

/-!
Verification of the process supervision engine of the MaiLauncher repository
(`src/MaiGoi/process_manager.py`).

The Python source is shallowly embedded: each relevant Python function is
translated into a Lean function over explicit state values.

Conventions of the embedding:

* Python objects that matter only by identity (`queue.Queue`, `threading.Event`
  instances) are represented by `Nat` identifiers; the boolean state of the
  event objects lives in a map `Nat → Bool`.  Fresh object allocation is
  modelled by an allocation counter `next_obj`.
* A Flet `ft.Text` control appended to a ListView is an `Entry`; a ListView's
  `controls` list is a `List Entry`.
* OS interaction (`psutil.pid_exists`, `os.path.exists`, `subprocess.Popen`,
  `handle.poll` / `wait` / timeouts) is an oracle record passed to the
  embedded functions.
* Python exceptions are modelled by explicit exceptional results carrying the
  state as mutated up to the raise point.
* GUI-only side effects (snackbars, button restyling, `page.update`) are out of
  scope per the specification (its section 1 lists view construction and
  rendering as external collaborators) and are not part of the state.
-/

/-- Python whitespace characters recognised by `str.strip` (ASCII range, which
is what subprocess log lines contain). -/
def pythonIsSpace (c : Char) : Bool :=
  c = ' ' || c = '\t' || c = '\n' || c = '\r' || c = '\x0b' || c = '\x0c'

/-- Embedding of Python `str.strip()`: removes leading and trailing
whitespace.  This is the operation the source applies at
`process_manager.py:257` (`proc_queue.put(line.strip())`). -/
def pyStrip (s : String) : String :=
  String.mk ((((s.toList.dropWhile pythonIsSpace).reverse).dropWhile pythonIsSpace).reverse)

/-- Embedding of Python `str.rstrip()`: removes trailing whitespace only.
This definition follows the SPEC's words ("enqueue each line with trailing
whitespace stripped", spec section 4.2) and exists to be compared against the
source's `pyStrip`. -/
def pyRstrip (s : String) : String :=
  String.mk (((s.toList.reverse).dropWhile pythonIsSpace).reverse)

/-- A display-ready log entry: one `ft.Text` control appended to a process
ListView by the supervision code. -/
inductive Entry where
  /-- `ft.Text(spans=..., selectable=True, size=12)` built from the line
  formatter's output (`process_manager.py:335`). A span is modelled by its
  text. -/
  | styled (spans : List String)
  /-- a plain marker line such as the start / restart / process-ended
  messages (`ft.Text("--- ... ---", italic=True)`). -/
  | text (content : String) (italic : Bool)
  /-- an error-coloured plain line (`ft.Text(..., color=ft.colors.RED)`,
  `process_manager.py:675`). -/
  | colored (content : String) (color : String)
deriving DecidableEq, Repr

/-- Embedding of the `ManagedProcessState` record.

Modelled from the spec: the repository's `state.py` (class
`ManagedProcessState`) is not among the provided sources; its fields and
construction defaults are taken from the spec's section 3 data model and from
every use in `process_manager.py`.  `output_queue` and `stop_event` hold
object identifiers; `process_handle` holds the identifier of a
`subprocess.Popen` object (`none` when not running); `output_list_view` holds
the contents of the record-owned ListView, `none` before one is created. -/
structure ManagedProcessState where
  process_id : String
  script_path : String
  display_name : String
  output_queue : Nat
  stop_event : Nat
  status : String
  has_run_before : Bool
  pid : Option Nat := none
  process_handle : Option Nat := none
  output_list_view : Option (List Entry) := none
deriving DecidableEq, Repr

/-- Embedding of the `AppState` fields used by `process_manager.py`.

Modelled from the spec: the repository's `state.py` (class `AppState`) is not
among the provided sources; the fields are those `process_manager.py` reads or
writes, per the spec's sections 3, 6 and 9 (the registry, the legacy
singleton queue/event for the main process, the configured interpreter path,
the script directory and the main console ListView).  `events i` is the
`is_set()` state of the `threading.Event` object with identifier `i`;
`next_obj` is the allocator for fresh queue/event identifiers. -/
structure AppState where
  managed_processes : List (String × ManagedProcessState)
  output_queue : Nat
  stop_event : Nat
  events : Nat → Bool
  next_obj : Nat
  output_list_view : Option (List Entry)
  python_path : Option String
  script_dir : String
  bot_process : Option Nat := none
  bot_pid : Option Nat := none

/-- Registry lookup: Python `app_state.managed_processes.get(process_id)`. -/
def lookupProc : List (String × ManagedProcessState) → String → Option ManagedProcessState
  | [], _ => none
  | (k, v) :: rest, key => if k = key then some v else lookupProc rest key

/-- Registry write: Python `app_state.managed_processes[process_id] = v`
(replace the binding if present, otherwise add it). -/
def insertProc : List (String × ManagedProcessState) → String → ManagedProcessState →
    List (String × ManagedProcessState)
  | [], key, v => [(key, v)]
  | (k, v0) :: rest, key, v =>
    if k = key then (k, v) :: rest else (k, v0) :: insertProc rest key v

/-- Point update of the event-state map (`event.set()` / `event.clear()`). -/
def setEvent (f : Nat → Bool) (i : Nat) (b : Bool) : Nat → Bool :=
  fun j => if j = i then b else f j

/-- Python truthiness of an optional pid: `None` and `0` are falsy. -/
def truthyPid : Option Nat → Bool
  | some p => decide (p ≠ 0)
  | none => false

/-- Python truthiness of an optional object reference (a `Popen` handle or a
ListView): any present object is truthy. -/
def truthyRef {α : Type} : Option α → Bool :=
  Option.isSome

/-! ## OutputReader (`read_process_output`, `process_manager.py:229-276`) -/

/-- The read loop of `read_process_output` with the stop event unset for the
whole read (the claim's scenario): `for line in iter(stdout.readline, "")`
yields lines until a read returns `""` (EOF); each non-empty line is enqueued
as `line.strip()`; on EOF the sentinel `None` is enqueued (the `finally`
block, since the stop event is not set).  The stream is the list of successive
`readline` results. -/
def readLoop : List String → List (Option String)
  | [] => [none]
  | line :: rest =>
    if line = "" then [none]
    else some (pyStrip line) :: readLoop rest

/-- Embedding of `read_process_output` restricted to a constant stop-event
value: if the stop event is set the loop breaks before enqueuing anything and
the `finally` block does not enqueue the sentinel; otherwise the loop runs as
`readLoop`. -/
def read_process_output (stop_set : Bool) (stream : List String) : List (Option String) :=
  if stop_set then [] else readLoop stream

/-! ## Log buffer operations of the processor loop -/

/-- `max_lines = 800` (`process_manager.py:380`). -/
def max_lines : Nat := 800

/-- `max_batch_size = 20` (`process_manager.py:300`). -/
def max_batch_size : Nat := 20

/-- The flush of one collected batch into the ListView
(`process_manager.py:379-399`): compute the overflow over `max_lines`, clamp
the removal count to the current length, delete that many entries from the
front (`del controls[0:k]`), then extend with the batch. -/
def flushToControls (controls batch : List Entry) : List Entry :=
  let current_len := controls.length
  let num_new := batch.length
  let lines_to_remove :=
    if current_len + num_new > max_lines then
      min (current_len + num_new - max_lines) current_len
    else 0
  controls.drop lines_to_remove ++ batch

/-- The marker appended directly (without any trim) when the processor loop
detects an unexpected termination
(`process_manager.py:464`, `output_lv.controls.append(ft.Text(...))`). -/
def unexpectedMarkerEntry (process_id : String) : Entry :=
  Entry.text ("--- Process " ++ process_id ++ " Ended Unexpectedly ---") true

/-- The direct append of the unexpected-termination marker: no trimming is
performed on this path. -/
def appendUnexpectedMarker (process_id : String) (controls : List Entry) : List Entry :=
  controls ++ [unexpectedMarkerEntry process_id]

/-- The process-ended marker built when the sentinel is drained
(`process_manager.py:329-332`; the source interpolates the id between
apostrophes, elided here). -/
def endedMarkerEntry (process_id : String) : Entry :=
  if process_id = "mmc" then Entry.text "--- Bot 进程已结束，可重新启动 ---" true
  else Entry.text ("--- Process " ++ process_id ++ " 已结束 --- ") true

/-! ## OutputProcessor (`output_processor_loop`, `process_manager.py:280-504`)

One iteration of the outer `while not proc_stop_event.is_set()` loop is
embedded as `processorIteration`.  Within one iteration the stop event's value
is fixed (the loop body never awaits between reading it), so it is carried as
a boolean field of `IterState`. -/

/-- The mutable data one processor-loop iteration touches for its process:
the queue contents (`none` is the reader's sentinel), the stop event value,
the registered record and the target ListView contents (`none` when
`target_list_view` was `None`). -/
structure IterState where
  queue : List (Option String)
  stopSet : Bool
  record : ManagedProcessState
  output_lv : Option (List Entry)
deriving DecidableEq, Repr

/-- Result of one iteration: `normal s exited unexpected` when the body runs
to completion (`exited` means the body executed `break`; `unexpected` means
the ended-unexpectedly classification fired), `raised s` when an exception
propagated out of the body (the source catches only `queue.Empty` inside the
batch-collection loop, `process_manager.py:350`). -/
inductive IterResult where
  | normal (s : IterState) (exited : Bool) (unexpected : Bool)
  | raised (s : IterState)
deriving DecidableEq, Repr

/-- The batch-collection loop (`process_manager.py:322-352`): pull items with
`get_nowait` while the batch is below `max_batch_size`, the queue has not
reported empty, and the stop event is unset.  The sentinel `None` appends the
process-ended marker and breaks; a raw line is passed to the external line
formatter `parse_log_line_to_spans` (modelled as `fmt`, whose `.error` is a
raised exception — the source has no handler for it, so it propagates, carrying
the queue as consumed so far).  Returns `(batch, remaining queue, ended
signal, queue_empty flag)`. -/
def drainLoop (fmt : String → Except Unit (List String)) (process_id : String)
    (stopSet : Bool) : List (Option String) → List Entry →
    Except (List (Option String)) (List Entry × List (Option String) × Bool × Bool)
  | q, batch =>
    if batch.length < max_batch_size && !stopSet then
      match q with
      | [] => .ok (batch, [], false, true)
      | none :: rest => .ok (batch ++ [endedMarkerEntry process_id], rest, true, false)
      | some raw :: rest =>
        match fmt raw with
        | .error _ => .error rest
        | .ok spans => drainLoop fmt process_id stopSet rest (batch ++ [Entry.styled spans])
    else .ok (batch, q, false, false)

/-- The state transition applied to the record when the sentinel was received
(`process_manager.py:429-434`): status `stopped`, handle and pid cleared,
`has_run_before` set. -/
def handleEndedSignal (rec : ManagedProcessState) : ManagedProcessState :=
  { rec with status := "stopped", process_handle := none, pid := none, has_run_before := true }

/-- One iteration of the processor loop body (`process_manager.py:307-502`,
excluding the end-of-iteration sleep, which is modelled separately by
`onCancelledDuringSleep`).

`fmt` is the external line formatter, `pid_exists` the OS liveness oracle
(`psutil.pid_exists`), `time_due` the value of
`time_since_last_update >= batch_update_interval` for this iteration.

Steps, in source order: collect a batch (`drainLoop`); decide `should_update`
(`process_manager.py:358-362`); flush the batch into the ListView when
`should_update and message_batch and output_lv and not stop` (lines 365-399);
on the sentinel, set the stop event, apply the terminal record transition and
break (lines 424-444; the legacy main-bot UI refresh is GUI-only and out of
scope); otherwise, when the record claims `running` but its pid is gone and
the stop event is unset, set the stop event, mark the record stopped (without
touching `has_run_before`), append the unexpected-termination marker directly
to the ListView and break (lines 447-474). -/
def processorIteration (fmt : String → Except Unit (List String)) (process_id : String)
    (pid_exists : Nat → Bool) (time_due : Bool) (s : IterState) : IterResult :=
  match drainLoop fmt process_id s.stopSet s.queue [] with
  | .error qrem => .raised { s with queue := qrem }
  | .ok (batch, q', ended, _queue_empty) =>
    let should_update := (!batch.isEmpty && time_due) || batch.length ≥ max_batch_size || ended
    let do_flush := should_update && !batch.isEmpty && truthyRef s.output_lv && !s.stopSet
    let lv1 := if do_flush then s.output_lv.map (flushToControls · batch) else s.output_lv
    if ended then
      .normal { s with
                queue := q'
                output_lv := lv1
                stopSet := true
                record := handleEndedSignal s.record } true false
    else
      match s.record.pid with
      | some p =>
        if s.record.status = "running" && !pid_exists p && !s.stopSet then
          .normal { s with
                    queue := q'
                    output_lv := lv1.map (appendUnexpectedMarker process_id)
                    stopSet := true
                    record := { s.record with
                                status := "stopped"
                                process_handle := none
                                pid := none } } true true
        else .normal { s with queue := q', output_lv := lv1 } false false
      | none => .normal { s with queue := q', output_lv := lv1 } false false

/-- The `asyncio.CancelledError` handler around the end-of-iteration sleep
(`process_manager.py:496-502`): set the stop event if unset and break.  The
record is not touched. -/
def onCancelledDuringSleep (s : IterState) : IterState :=
  { s with stopSet := true }

/-! ## ProcessSupervisor: stop (`stop_managed_process`, `process_manager.py:171-219`,
and `_terminate_process_gracefully`, `process_manager.py:80-116`) -/

/-- OS oracle for the stop path: `handle.poll() is None` (process still
running), whether `handle.wait(timeout=1.0)` raises `TimeoutExpired`,
`psutil.pid_exists`, and whether `psutil.Process(pid).wait(timeout=1.0)`
raises `psutil.TimeoutExpired`. -/
structure StopOS where
  poll_running : Bool
  wait_times_out : Bool
  pid_exists : Nat → Bool
  ps_wait_times_out : Bool

/-- Observable actions of a stop call, in execution order. -/
inductive StopAction where
  | set_stop_event
  | terminate
  | wait1
  | kill
  | ps_terminate
  | ps_wait1
  | ps_kill
  | clear_stop_event
deriving DecidableEq, Repr

/-- Embedding of `_terminate_process_gracefully`: with a truthy handle and
pid, `terminate` then `wait(1.0)`, escalating to `kill` on timeout (in which
case `stopped_cleanly` keeps its `False` value); with only a truthy pid, the
same dance through psutil guarded by `pid_exists`; otherwise nothing to do.
Returns `(stopped_cleanly, actions)`. -/
def terminateGracefully (os : StopOS) (handle pid : Option Nat) : Bool × List StopAction :=
  if truthyRef handle && truthyPid pid then
    if os.poll_running then
      if os.wait_times_out then (false, [.terminate, .wait1, .kill])
      else (true, [.terminate, .wait1])
    else (true, [])
  else if truthyPid pid then
    match pid with
    | some p =>
      if os.pid_exists p then
        if os.ps_wait_times_out then (false, [.ps_terminate, .ps_wait1, .ps_kill])
        else (true, [.ps_terminate, .ps_wait1])
      else (true, [])
    | none => (true, [])
  else (true, [])

/-- The marker the main-process branch of `stop_managed_process` leaves as the
sole content of the main console view (`process_manager.py:215`). -/
def mmcStoppedMarker : Entry :=
  Entry.text "--- Bot 进程已停止，命令行已清空 ---" true

/-- Embedding of `stop_managed_process`.  Missing record: no state change
(the source only updates GUI buttons / shows a snackbar).  Otherwise: set the
record's stop event if unset; run `_terminate_process_gracefully`; mark the
record `stopped` with handle and pid cleared; clear the record's stop event
again.  For the main process `"mmc"` additionally: `app_state.clear_process()`
(modelled from the spec: `state.py` is absent — per the source comment it
clears the legacy single-process fields `bot_process` / `bot_pid`), clear the
global `app_state.stop_event`, and replace the whole main console view content
with the single stopped marker (`controls.clear()` + `append`,
`process_manager.py:214-215`). -/
def stop_managed_process (os : StopOS) (process_id : String) (st : AppState) :
    AppState × List StopAction :=
  match lookupProc st.managed_processes process_id with
  | none => (st, [])
  | some ps =>
    let (acts0, events1) :=
      if st.events ps.stop_event = false then
        ([StopAction.set_stop_event], setEvent st.events ps.stop_event true)
      else ([], st.events)
    let tacts := (terminateGracefully os ps.process_handle ps.pid).2
    let ps1 := { ps with status := "stopped", process_handle := none, pid := none }
    let events2 := setEvent events1 ps.stop_event false
    let acts := acts0 ++ tacts ++ [StopAction.clear_stop_event]
    let st1 := { st with
                 managed_processes := insertProc st.managed_processes process_id ps1
                 events := events2 }
    if process_id = "mmc" then
      ({ st1 with
         bot_process := none
         bot_pid := none
         events := setEvent events2 st.stop_event false
         output_list_view := match st1.output_list_view with
           | some _ => some [mmcStoppedMarker]
           | none => none }, acts)
    else (st1, acts)

/-! ## ProcessSupervisor: start (`start_managed_process`, `process_manager.py:525-764`) -/

/-- OS oracle for the start path: `psutil.pid_exists`, `os.path.exists`,
whether `subprocess.Popen` succeeds, and the pid it returns on success (the
`Popen` object is identified by its pid). -/
structure StartOS where
  pid_exists : Nat → Bool
  path_exists : String → Bool
  spawn_ok : Bool
  spawn_pid : Nat

/-- Observable OS action of a start call. -/
inductive StartAction where
  | spawn (cmd : List String)
deriving DecidableEq, Repr

/-- Result of a start call: `ret success message state actions` for a normal
return, `raised state actions` when an exception propagates out of
`start_managed_process` (which happens on spawn failure: the `except` block's
`traceback.logger.info_exc()` at `process_manager.py:750` is itself an
`AttributeError` — the `traceback` module has no `logger` attribute — raised
before the cleanup code at lines 752-754 can run). -/
inductive StartOutcome where
  | ret (success : Bool) (message : Option String) (st : AppState) (acts : List StartAction)
  | raised (st : AppState) (acts : List StartAction)

/-- `os.path.basename` for the forward-slash separator. -/
def basename (p : String) : String :=
  (p.splitOn "/").getLastD p

/-- The generated process id when the caller passes none
(`process_manager.py:545-546`):
`"process_" + basename(script_path).replace(".py", "").replace(".", "_")`. -/
def defaultProcessId (script_path : String) : String :=
  "process_" ++ (((basename script_path).replace ".py" "").replace "." "_")

/-- The process id a start call operates on. -/
def processIdOf (script_path : String) (process_id0 : Option String) : String :=
  process_id0.getD (defaultProcessId script_path)

/-- The duplicate-launch guard (`process_manager.py:551-557`): an existing
record with status `"running"`, a truthy pid, and `psutil.pid_exists` true.
(`existing_state.pid` is a Python truthiness test: pid `0` or `None` is
falsy.) -/
def dupGuard (os : StartOS) : Option ManagedProcessState → Bool
  | some es =>
    es.status = "running" && truthyPid es.pid &&
      (match es.pid with
       | some p => os.pid_exists p
       | none => false)
  | none => false

/-- `full_path` resolution (`process_manager.py:563-565`): absolute paths kept
as-is, otherwise joined onto `app_state.script_dir` (POSIX separator). -/
def resolvePath (script_dir script_path : String) : String :=
  if script_path.startsWith "/" then script_path else script_dir ++ "/" ++ script_path

/-- The duplicate-launch failure message (`process_manager.py:558`, the
apostrophes around the name elided). -/
def alreadyRunningMsg (display_name process_id : String) : String :=
  "进程 " ++ display_name ++ " (ID: " ++ process_id ++ ") 已在运行中"

/-- The missing-script failure message (`process_manager.py:568`). -/
def missingScriptMsg (script_path : String) : String :=
  "错误：未找到脚本文件 " ++ script_path

/-- The missing-interpreter failure message (`process_manager.py:671`). -/
def noInterpreterMsg : String :=
  "未设置有效的 Python 解释器路径。请在设置中指定 Python 解释器路径。"

/-- The interpreter-path check (`process_manager.py:664`):
`app_state.python_path and os.path.exists(app_state.python_path)` — a `None`
or empty path is falsy, and the file must exist.  Returns the usable
interpreter path, or `none` for the hard-error branch. -/
def interpOf (os : StartOS) : Option String → Option String
  | some pp => if pp ≠ "" && os.path_exists pp then some pp else none
  | none => none

/-- Which ListView the start call writes to: the main console view, the
record-owned view, or none. -/
inductive LvOwner where
  | mainView
  | recView
  | noView
deriving DecidableEq, Repr

/-- Start / restart marker entries (`process_manager.py:633,638,643`). -/
def startMarkerEntry (display_name : String) : Entry :=
  Entry.text ("--- 启动 " ++ display_name ++ " --- ") true

/-- Restart separator entry for a reused adapter view
(`process_manager.py:633`). -/
def restartMarkerEntry (display_name : String) : Entry :=
  Entry.text ("--- 重新启动 " ++ display_name ++ " --- ") true

/-- The target-ListView determination of `start_managed_process`
(`process_manager.py:616-643`): the main process uses the app console view,
clearing it when non-empty; an adapter reuses its record's view (clear + add
restart marker) or creates a fresh one (add start marker); afterwards, any
still-empty present view receives the start marker. -/
def determineLv (is_main_bot : Bool) (display_name : String)
    (app_view : Option (List Entry)) (carried_view : Option (List Entry)) :
    LvOwner × List Entry :=
  let owner_cs :=
    if is_main_bot then
      match app_view with
      | some cs => (LvOwner.mainView, if cs.length > 0 then ([] : List Entry) else cs)
      | none => (LvOwner.noView, [])
    else
      match carried_view with
      | some _ => (LvOwner.recView, [restartMarkerEntry display_name])
      | none => (LvOwner.recView, [startMarkerEntry display_name])
  match owner_cs with
  | (LvOwner.noView, cs) => (LvOwner.noView, cs)
  | (owner, cs) =>
    if cs.length = 0 then (owner, cs ++ [startMarkerEntry display_name]) else (owner, cs)

/-- Embedding of `start_managed_process`.

Source order: resolve the process id; duplicate-launch guard (fail fast, no
state change); script existence check (fail fast, no state change); clear the
existing record's stale stop event if set (`process_manager.py:584-586`);
create the channels — for the main bot the app-state singletons, otherwise a
fresh `queue.Queue()` and a fresh (unset) `threading.Event()`
(`process_manager.py:588-589`); build the new record with status
`"starting"`, carried `has_run_before` and carried `output_list_view`;
register it; determine and prepare the target ListView; interpreter check
(`app_state.python_path` truthy and existing — otherwise append an
error-coloured line to a non-empty view, mark the registered record
`"error"`, clear the legacy fields for the main bot, and return the failure);
spawn; on success store handle/pid, set `"running"` and `has_run_before`, set
the legacy fields for the main bot, and return success (the reader thread and
processor task it also starts are not OS process spawns); on spawn failure
the `except` block raises before any cleanup (see `StartOutcome.raised`). -/
def start_managed_process (os : StartOS) (script_path ty display_name : String)
    (st : AppState) (process_id0 : Option String) : StartOutcome :=
  let process_id := processIdOf script_path process_id0
  let existing := lookupProc st.managed_processes process_id
  if dupGuard os existing then
    .ret false (some (alreadyRunningMsg display_name process_id)) st []
  else
    let full_path := resolvePath st.script_dir script_path
    if !os.path_exists full_path then
      .ret false (some (missingScriptMsg script_path)) st []
    else
      let is_main_bot := ty = "mmc"
      let events1 :=
        match existing with
        | some es => if st.events es.stop_event then setEvent st.events es.stop_event false
                     else st.events
        | none => st.events
      let new_queue := if is_main_bot then st.output_queue else st.next_obj
      let new_event := if is_main_bot then st.stop_event else st.next_obj + 1
      let next1 := if is_main_bot then st.next_obj else st.next_obj + 2
      let events2 := if is_main_bot then events1 else setEvent events1 new_event false
      let has_run_before :=
        match existing with
        | some es => es.has_run_before
        | none => false
      let carried_view :=
        match existing with
        | some es => es.output_list_view
        | none => none
      let new_state1 : ManagedProcessState :=
        { process_id := process_id
          script_path := script_path
          display_name := display_name
          output_queue := new_queue
          stop_event := new_event
          status := "starting"
          has_run_before := has_run_before
          pid := none
          process_handle := none
          output_list_view := carried_view }
      let ownerCs := determineLv is_main_bot display_name st.output_list_view carried_view
      let owner := ownerCs.1
      let finish : ManagedProcessState → List Entry → AppState := fun rec_ cs =>
        { st with
          managed_processes := insertProc st.managed_processes process_id
            (if owner = LvOwner.recView then { rec_ with output_list_view := some cs } else rec_)
          output_list_view := if owner = LvOwner.mainView then some cs else st.output_list_view
          events := events2
          next_obj := next1 }
      match interpOf os st.python_path with
      | none =>
        let cs1 :=
          if owner ≠ LvOwner.noView && ownerCs.2.length > 0 then
            ownerCs.2 ++ [Entry.colored ("错误: " ++ noInterpreterMsg) "RED"]
          else ownerCs.2
        let st1 := finish { new_state1 with status := "error" } cs1
        let st2 := if is_main_bot then { st1 with bot_process := none, bot_pid := none } else st1
        .ret false (some noInterpreterMsg) st2 []
      | some pp =>
        let cmd_list := [pp, "-u", full_path]
        if os.spawn_ok then
          let rec_run := { new_state1 with
                           process_handle := some os.spawn_pid
                           pid := some os.spawn_pid
                           status := "running"
                           has_run_before := true }
          let st1 := finish rec_run ownerCs.2
          let st2 := if is_main_bot then
                       { st1 with bot_process := some os.spawn_pid, bot_pid := some os.spawn_pid }
                     else st1
          .ret true (some ("Process " ++ display_name ++ " started successfully.")) st2
            [StartAction.spawn cmd_list]
        else
          .raised (finish new_state1 ownerCs.2) []

/-! ## Projection helpers and concrete instances used by the verification -/

/-- Success flag of a start outcome (`none` when the call raised). -/
def startSuccess : StartOutcome → Option Bool
  | .ret s _ _ _ => some s
  | .raised _ _ => none

/-- Message of a start outcome. -/
def startMessage : StartOutcome → Option String
  | .ret _ m _ _ => m
  | .raised _ _ => none

/-- The application state a start outcome leaves behind. -/
def startState : StartOutcome → AppState
  | .ret _ _ st _ => st
  | .raised st _ => st

/-- The OS actions a start outcome performed. -/
def startActs : StartOutcome → List StartAction
  | .ret _ _ _ a => a
  | .raised _ a => a

/-- All queue / event object identifiers stored in the state are below the
allocation counter (true of every state the program builds, since identifiers
only come from the allocator). -/
def idsBound (st : AppState) : Prop :=
  st.output_queue < st.next_obj ∧ st.stop_event < st.next_obj ∧
    ∀ kr ∈ st.managed_processes,
      kr.2.output_queue < st.next_obj ∧ kr.2.stop_event < st.next_obj

/-- A generic running adapter record used in concrete scenarios. -/
def runningAdapterRec (qid eid p : Nat) : ManagedProcessState :=
  { process_id := "adapter_a"
    script_path := "a.py"
    display_name := "Adapter A"
    output_queue := qid
    stop_event := eid
    status := "running"
    has_run_before := true
    pid := some p
    process_handle := some p
    output_list_view := none }

/-- Concrete scenario for the duplicate-launch guard: a registered running
adapter whose pid the OS reports alive. -/
def c1w_app : AppState :=
  { managed_processes := [("adapter_a", runningAdapterRec 2 3 41)]
    output_queue := 0
    stop_event := 1
    events := fun _ => false
    next_obj := 4
    output_list_view := some []
    python_path := some "/usr/bin/python3"
    script_dir := "/opt/bot"
    bot_process := none
    bot_pid := none }

/-- OS oracle for the duplicate-launch scenario: pid 41 is alive. -/
def c1w_os : StartOS :=
  { pid_exists := fun p => p = 41
    path_exists := fun _ => true
    spawn_ok := true
    spawn_pid := 77 }

/-- Concrete previous main-process record whose channels are the app-state
singletons (ids 0 and 1), as every `"mmc"` start leaves behind. -/
def c4_prev : ManagedProcessState :=
  { process_id := "mmc"
    script_path := "bot.py"
    display_name := "MaiCore"
    output_queue := 0
    stop_event := 1
    status := "stopped"
    has_run_before := true
    pid := none
    process_handle := none
    output_list_view := none }

/-- Concrete app state holding the stopped previous `"mmc"` run. -/
def c4_app : AppState :=
  { managed_processes := [("mmc", c4_prev)]
    output_queue := 0
    stop_event := 1
    events := fun _ => false
    next_obj := 2
    output_list_view := some []
    python_path := some "/usr/bin/python3"
    script_dir := "/opt/bot"
    bot_process := none
    bot_pid := none }

/-- OS oracle for the `"mmc"` restart scenario: everything present, spawn
succeeds with pid 55. -/
def c4_os : StartOS :=
  { pid_exists := fun _ => false
    path_exists := fun _ => true
    spawn_ok := true
    spawn_pid := 55 }

/-- The `"mmc"` restart start call of the channel-reuse scenario. -/
def c4_result : StartOutcome :=
  start_managed_process c4_os "bot.py" "mmc" "MaiCore" c4_app (some "mmc")

/-- Adapter start scenario on an empty registry (used to witness fresh channel
allocation). -/
def c4w_app : AppState :=
  { managed_processes := []
    output_queue := 0
    stop_event := 1
    events := fun _ => false
    next_obj := 2
    output_list_view := none
    python_path := some "/usr/bin/python3"
    script_dir := "/opt/bot"
    bot_process := none
    bot_pid := none }

/-- Concrete line formatter that raises on the line `"boom"`. -/
def c3_fmt : String → Except Unit (List String) :=
  fun s => if s = "boom" then .error () else .ok [s]

/-- Iteration state delivering `"boom"` followed by another line to the
processor loop of a running adapter. -/
def c3_state : IterState :=
  { queue := [some "boom", some "later"]
    stopSet := false
    record := runningAdapterRec 2 3 9
    output_lv := some [] }

/-- Iteration state of a running adapter with an empty queue (cancellation
scenario). -/
def c7_state : IterState :=
  { queue := []
    stopSet := false
    record := runningAdapterRec 2 3 9
    output_lv := some [] }

/-- Formatter that always raises, for the exception-path witness. -/
def c7w_fmt : String → Except Unit (List String) :=
  fun _ => .error ()

/-- Iteration state with one pending line, for the exception-path witness. -/
def c7w_state : IterState :=
  { queue := [some "x"]
    stopSet := false
    record := runningAdapterRec 2 3 9
    output_lv := some [] }

/-- OS oracle where no path exists (missing-script scenario). -/
def c8_os : StartOS :=
  { pid_exists := fun _ => false
    path_exists := fun _ => false
    spawn_ok := false
    spawn_pid := 0 }

/-- App state with an empty registry and no interpreter configured. -/
def c8_app : AppState :=
  { managed_processes := []
    output_queue := 0
    stop_event := 1
    events := fun _ => false
    next_obj := 2
    output_list_view := none
    python_path := none
    script_dir := "/opt/bot"
    bot_process := none
    bot_pid := none }

/-- The missing-script start call. -/
def c8_result : StartOutcome :=
  start_managed_process c8_os "missing.py" "adapter" "M" c8_app (some "m")

/-- OS oracle for the stop scenarios: process alive, graceful wait succeeds. -/
def c5w_os : StopOS :=
  { poll_running := true
    wait_times_out := false
    pid_exists := fun _ => true
    ps_wait_times_out := false }

/-- App state with one running adapter and a running main process, for the
stop scenarios. -/
def c5w_app : AppState :=
  { managed_processes :=
      [("adapter_a", runningAdapterRec 2 3 41),
       ("mmc", { c4_prev with status := "running", pid := some 50, process_handle := some 50 })]
    output_queue := 0
    stop_event := 1
    events := fun _ => false
    next_obj := 4
    output_list_view := some [Entry.styled ["old line"]]
    python_path := some "/usr/bin/python3"
    script_dir := "/opt/bot"
    bot_process := some 50
    bot_pid := some 50 }

/-- Sample batch entry. -/
def c2w_entry : Entry := Entry.styled ["line"]

/-- A full 800-entry buffer. -/
def c2w_controls : List Entry := List.replicate 800 c2w_entry

/-- OS oracle where every path exists but spawn would fail, for the
missing-interpreter scenario. -/
def c8w_os : StartOS :=
  { pid_exists := fun _ => false
    path_exists := fun _ => true
    spawn_ok := false
    spawn_pid := 0 }

/-! ## Helper lemmas -/

/-- Writing a binding and reading it back yields the written record. -/
theorem lookupProc_insertProc (m : List (String × ManagedProcessState)) (k : String)
    (v : ManagedProcessState) : lookupProc (insertProc m k v) k = some v := by
  induction m with
  | nil => simp [insertProc, lookupProc]
  | cons hd tl ih =>
    obtain ⟨k0, v0⟩ := hd
    by_cases hk : k0 = k
    · simp [insertProc, lookupProc, hk]
    · simp [insertProc, lookupProc, hk, ih]

/-- Reading the written event id yields the written value. -/
theorem setEvent_same (f : Nat → Bool) (i : Nat) (b : Bool) : setEvent f i b i = b := by
  simp [setEvent]

/-- Reading another event id is unchanged. -/
theorem setEvent_other (f : Nat → Bool) (i j : Nat) (b : Bool) (h : j ≠ i) :
    setEvent f i b j = f j := by
  simp [setEvent, h]

/-! ## Claim C2 -/

/-- Claim C2 counterexample: the claim asserts that after EVERY operation that
appends entries to the log buffer — including every direct append — the
buffer holds at most the cap of 800 entries.  The direct append of the
unexpected-termination marker (`process_manager.py:464`) performs no trim: on
a buffer already at the cap (as any flush leaves behind under sustained
output) it produces 801 entries. -/
theorem C2_counterexample :
    (appendUnexpectedMarker "adapter_a" c2w_controls).length = 801 ∧
    ¬ (appendUnexpectedMarker "adapter_a" c2w_controls).length ≤ max_lines := by
  have h : (appendUnexpectedMarker "adapter_a" c2w_controls).length = 801 := by
    unfold appendUnexpectedMarker c2w_controls
    rw [List.length_append, List.length_replicate]
    rfl
  exact ⟨h, by rw [h]; unfold max_lines; omega⟩

/-- Claim C2 as amended: the batch flush of the output processor loop does
maintain the cap — whenever the incoming batch is itself at most the cap
(every batch the loop builds has at most 20 entries), the flushed buffer has
at most `max_lines` entries, and equals the most recent entries of
`old ++ batch` in order (exactly the required number of oldest entries
removed from the front).  The direct append of the unexpected-termination
marker, however, performs no trim and always grows the buffer by one, so the
800-cap invariant does not hold after that direct append. -/
theorem C2_amended (controls batch : List Entry) (process_id : String)
    (hb : batch.length ≤ max_lines) :
    (flushToControls controls batch).length ≤ max_lines ∧
    flushToControls controls batch =
      (controls ++ batch).drop (controls.length + batch.length - max_lines) ∧
    (appendUnexpectedMarker process_id (flushToControls controls batch)).length =
      (flushToControls controls batch).length + 1 := by
  unfold flushToControls
  by_cases hgt : controls.length + batch.length > max_lines
  · have hle : controls.length + batch.length - max_lines ≤ controls.length := by omega
    have hmin : min (controls.length + batch.length - max_lines) controls.length =
        controls.length + batch.length - max_lines := by omega
    refine ⟨?_, ?_, ?_⟩
    · simp only [hgt, if_pos, hmin]
      simp [List.length_drop]
      omega
    · simp only [hgt, if_pos, hmin]
      rw [List.drop_append_of_le_length hle]
    · simp [appendUnexpectedMarker]
      omega
  · have hz : ¬ (controls.length + batch.length > max_lines) := hgt
    have hsub : controls.length + batch.length - max_lines = 0 := by omega
    refine ⟨?_, ?_, ?_⟩
    · simp only [if_neg hz]
      simp
      omega
    · simp only [if_neg hz, hsub]
      simp
    · simp [appendUnexpectedMarker]
      omega

/-- Witness for the amended claim C2, at a full 800-entry buffer and a
one-entry batch: the flush stays at the cap and drops exactly one oldest
entry, and the direct marker append then exceeds the cap. -/
theorem C2_amended_witness :
    (flushToControls c2w_controls [c2w_entry]).length ≤ max_lines ∧
    flushToControls c2w_controls [c2w_entry] =
      (c2w_controls ++ [c2w_entry]).drop (c2w_controls.length + [c2w_entry].length - max_lines) ∧
    (appendUnexpectedMarker "adapter_a" (flushToControls c2w_controls [c2w_entry])).length =
      (flushToControls c2w_controls [c2w_entry]).length + 1 :=
  C2_amended c2w_controls [c2w_entry] "adapter_a" (by simp [max_lines])

/-! ## Claim C9 -/

/-- Claim C9 counterexample: the claim asserts the enqueued value equals the
line with only its trailing whitespace stripped, leading whitespace
preserved.  The source enqueues `line.strip()` (`process_manager.py:257`),
which also removes leading whitespace: on the stream line `" mai \n"` the
reader enqueues `"mai"`, while the claim requires `" mai"`. -/
theorem C9_counterexample :
    read_process_output false [" mai \n"] = [some "mai", none] ∧
    pyRstrip " mai \n" = " mai" ∧
    ("mai" : String) ≠ " mai" := by
  refine ⟨?_, ?_, ?_⟩ <;> decide

/-- Claim C9 as amended: for every non-empty line the reader enqueues the
line with BOTH leading and trailing whitespace stripped (Python
`str.strip()`), and `pyStrip` indeed removes only whitespace from both ends:
every string decomposes as whitespace, the stripped core, then whitespace. -/
theorem C9_amended :
    (∀ (line : String) (rest : List String), line ≠ "" →
       read_process_output false (line :: rest) = some (pyStrip line) :: readLoop rest) ∧
    (∀ s : String, ∃ pre suf : List Char,
       (∀ c ∈ pre, pythonIsSpace c) ∧ (∀ c ∈ suf, pythonIsSpace c) ∧
       s.toList = pre ++ (pyStrip s).toList ++ suf) := by
  constructor
  · intro line rest hline
    simp [read_process_output, readLoop, hline]
  · intro s
    set l := s.toList with hl
    set mid := l.dropWhile pythonIsSpace with hmid
    refine ⟨l.takeWhile pythonIsSpace, (mid.reverse.takeWhile pythonIsSpace).reverse,
      ?_, ?_, ?_⟩
    · intro c hc
      exact List.mem_takeWhile_imp hc
    · intro c hc
      rw [List.mem_reverse] at hc
      exact List.mem_takeWhile_imp hc
    · have h1 : l.takeWhile pythonIsSpace ++ mid = l :=
        List.takeWhile_append_dropWhile pythonIsSpace l
      have h2 : mid.reverse.takeWhile pythonIsSpace ++ mid.reverse.dropWhile pythonIsSpace =
          mid.reverse := List.takeWhile_append_dropWhile pythonIsSpace mid.reverse
      have h3 : (pyStrip s).toList = (mid.reverse.dropWhile pythonIsSpace).reverse := rfl
      have h4 : mid = (mid.reverse.dropWhile pythonIsSpace).reverse ++
          (mid.reverse.takeWhile pythonIsSpace).reverse := by
        conv_lhs => rw [← List.reverse_reverse mid, ← h2]
        rw [List.reverse_append]
      rw [h3]
      calc l = l.takeWhile pythonIsSpace ++ mid := h1.symm
        _ = l.takeWhile pythonIsSpace ++ ((mid.reverse.dropWhile pythonIsSpace).reverse ++
              (mid.reverse.takeWhile pythonIsSpace).reverse) := by rw [← h4]
        _ = l.takeWhile pythonIsSpace ++ (mid.reverse.dropWhile pythonIsSpace).reverse ++
              (mid.reverse.takeWhile pythonIsSpace).reverse := by rw [List.append_assoc]

/-- Witness for the amended claim C9 at the line `" mai \n"`: the enqueued
value is the both-ends-stripped line, and the decomposition exists. -/
theorem C9_amended_witness :
    read_process_output false [" mai \n"] = some (pyStrip " mai \n") :: readLoop [] ∧
    (∃ pre suf : List Char,
       (∀ c ∈ pre, pythonIsSpace c) ∧ (∀ c ∈ suf, pythonIsSpace c) ∧
       (" mai \n" : String).toList = pre ++ (pyStrip " mai \n").toList ++ suf) :=
  ⟨C9_amended.1 " mai \n" [] (by decide), C9_amended.2 " mai \n"⟩

/-! ## Claim C3 -/

/-- When the batch-collection loop reaches a line on which the formatter
raises (with fewer than `max_batch_size` items collected so far), the
exception propagates out of the collection loop, carrying the queue as
consumed past the raising line. -/
theorem drainLoop_error_of (fmt : String → Except Unit (List String)) (process_id : String)
    (bad : String) (rest : List (Option String)) (hbad : fmt bad = .error ()) :
    ∀ (pre : List String) (batch : List Entry),
      batch.length + pre.length < max_batch_size →
      (∀ x ∈ pre, ∃ sp, fmt x = .ok sp) →
      drainLoop fmt process_id false (pre.map some ++ some bad :: rest) batch = .error rest := by
  intro pre
  induction pre with
  | nil =>
    intro batch hlen _
    have hcond : (batch.length < max_batch_size && !false) = true := by
      simp only [Bool.not_false, Bool.and_true, decide_eq_true_eq]
      omega
    unfold drainLoop
    rw [hcond]
    simp only [List.map_nil, List.nil_append, if_true]
    rw [hbad]
  | cons x xs ih =>
    intro batch hlen hok
    obtain ⟨sp, hsp⟩ := hok x (List.mem_cons_self x xs)
    have hcond : (batch.length < max_batch_size && !false) = true := by
      simp only [Bool.not_false, Bool.and_true, decide_eq_true_eq]
      omega
    unfold drainLoop
    rw [hcond]
    simp only [List.map_cons, List.cons_append, if_true]
    rw [hsp]
    exact ih (batch ++ [Entry.styled sp])
      (by rw [List.length_append]; simp at hlen ⊢; omega)
      (fun y hy => hok y (List.mem_cons_of_mem x hy))

/-- Claim C3 counterexample: the claim asserts that a formatter exception
still yields a fallback entry for the raw line and never terminates the
processor loop.  In the source the only handler inside the collection loop is
`except queue.Empty` (`process_manager.py:350`); a formatter exception
propagates, so on the queue `["boom", "later"]` with a formatter that raises
on `"boom"` the iteration raises: no entry is appended for `"boom"` (the
ListView stays empty), the already-queued `"later"` is left behind, and the
loop is terminated by the exception. -/
theorem C3_counterexample :
    processorIteration c3_fmt "adapter_a" (fun _ => true) true c3_state =
      .raised { queue := [some "later"]
                stopSet := false
                record := runningAdapterRec 2 3 9
                output_lv := some [] } := by
  decide

/-- Claim C3 as amended: a line on which the formatter raises is dropped, not
rendered as a fallback entry; the exception propagates out of the iteration
(terminating the processor loop), leaving the record, the stop flag and the
ListView exactly as they were, with the queue consumed just past the raising
line (so the earlier lines of the batch are discarded unflushed and the later
lines are never processed by this loop). -/
theorem C3_amended (fmt : String → Except Unit (List String)) (process_id : String)
    (pe : Nat → Bool) (due : Bool) (pre : List String) (bad : String)
    (rest : List (Option String)) (s : IterState)
    (hq : s.queue = pre.map some ++ some bad :: rest)
    (hstop : s.stopSet = false)
    (hlen : pre.length < max_batch_size)
    (hok : ∀ x ∈ pre, ∃ sp, fmt x = .ok sp)
    (hbad : fmt bad = .error ()) :
    processorIteration fmt process_id pe due s = .raised { s with queue := rest } := by
  have hd := drainLoop_error_of fmt process_id bad rest hbad pre []
    (by simpa using hlen) hok
  unfold processorIteration
  rw [hstop, hq, hd]

/-- Witness for the amended claim C3: the concrete raising scenario of the
counterexample, derived by instantiating the amended theorem. -/
theorem C3_amended_witness :
    processorIteration c3_fmt "adapter_a" (fun _ => true) true c3_state =
      .raised { c3_state with queue := [some "later"] } :=
  C3_amended c3_fmt "adapter_a" (fun _ => true) true [] "boom" [some "later"] c3_state
    (by decide) (by decide) (by decide)
    (by intro x hx; cases hx) rfl

/-! ## Claim C6 -/

/-- Claim C6: when the batch collection of an iteration receives the reader's
sentinel (drains with the ended flag set), the iteration sets the stop
signal, applies `handleEndedSignal` to the record — status `"stopped"`,
handle and pid cleared, `has_run_before := true` — and exits the loop with
the unexpected-termination classification NOT applied (the liveness check at
`process_manager.py:447-474` is unreachable past the `break` at line 444). -/
theorem C6_sentinel_clean_stop (fmt : String → Except Unit (List String))
    (process_id : String) (pe : Nat → Bool) (due : Bool) (s : IterState)
    (batch : List Entry) (q' : List (Option String)) (qe : Bool)
    (_hstop : s.stopSet = false)
    (hd : drainLoop fmt process_id s.stopSet s.queue [] = .ok (batch, q', true, qe)) :
    (∃ lv', processorIteration fmt process_id pe due s =
       .normal { queue := q', stopSet := true, record := handleEndedSignal s.record,
                 output_lv := lv' } true false) ∧
    (handleEndedSignal s.record).status = "stopped" ∧
    (handleEndedSignal s.record).pid = none ∧
    (handleEndedSignal s.record).process_handle = none ∧
    (handleEndedSignal s.record).has_run_before = true := by
  refine ⟨?_, rfl, rfl, rfl, rfl⟩
  unfold processorIteration
  rw [hd]
  simp only [if_true, Bool.or_true]
  exact ⟨_, rfl⟩

/-- Queue holding only the sentinel, for the C6 witness. -/
theorem C6_witness :
    (∃ lv', processorIteration c3_fmt "adapter_a" (fun _ => true) true
       { queue := [none], stopSet := false, record := runningAdapterRec 2 3 9,
         output_lv := some [] } =
       .normal { queue := [], stopSet := true,
                 record := handleEndedSignal (runningAdapterRec 2 3 9),
                 output_lv := lv' } true false) ∧
    (handleEndedSignal (runningAdapterRec 2 3 9)).status = "stopped" ∧
    (handleEndedSignal (runningAdapterRec 2 3 9)).pid = none ∧
    (handleEndedSignal (runningAdapterRec 2 3 9)).process_handle = none ∧
    (handleEndedSignal (runningAdapterRec 2 3 9)).has_run_before = true :=
  C6_sentinel_clean_stop c3_fmt "adapter_a" (fun _ => true) true
    { queue := [none], stopSet := false, record := runningAdapterRec 2 3 9,
      output_lv := some [] }
    [endedMarkerEntry "adapter_a"] [] false rfl rfl

/-! ## Claim C7 -/

/-- Claim C7 counterexample: the claim asserts that every abnormal exit of
the processor loop forces the record into a terminal state, so no record is
ever left with status `"running"` after its loop has terminated.  The
cancellation handler (`process_manager.py:496-502`) only sets the stop event
and breaks — on a running adapter the loop exits with the record still
claiming `"running"`. -/
theorem C7_counterexample :
    (onCancelledDuringSleep c7_state).record.status = "running" ∧
    (onCancelledDuringSleep c7_state).stopSet = true := by
  decide

/-- Claim C7 as amended: the source has no safety net forcing a terminal
state.  On task cancellation during the yield sleep the loop sets the stop
event and exits with the record (and ListView) untouched; on an uncaught
exception from the loop body (the only modelled source is the formatter,
claim C3) the loop terminates with the record, the stop flag and the ListView
all unchanged.  In both cases a record whose status was `"running"` stays
`"running"` after the loop is gone. -/
theorem C7_amended :
    (∀ s : IterState,
       (onCancelledDuringSleep s).record = s.record ∧
       (onCancelledDuringSleep s).stopSet = true ∧
       (onCancelledDuringSleep s).output_lv = s.output_lv) ∧
    (∀ (fmt : String → Except Unit (List String)) (process_id : String)
       (pe : Nat → Bool) (due : Bool) (s s' : IterState),
       processorIteration fmt process_id pe due s = .raised s' →
       s'.record = s.record ∧ s'.stopSet = s.stopSet ∧ s'.output_lv = s.output_lv) := by
  constructor
  · intro s
    exact ⟨rfl, rfl, rfl⟩
  · intro fmt process_id pe due s s' h
    unfold processorIteration at h
    cases hdl : drainLoop fmt process_id s.stopSet s.queue [] with
    | error qrem =>
      rw [hdl] at h
      cases h
      exact ⟨rfl, rfl, rfl⟩
    | ok r =>
      obtain ⟨batch, q', ended, qe⟩ := r
      rw [hdl] at h
      dsimp only at h
      exfalso
      repeat' split at h
      all_goals cases h

/-- Witness for the amended claim C7, at the cancellation state and at a
concrete raising iteration. -/
theorem C7_amended_witness :
    ((onCancelledDuringSleep c7_state).record = c7_state.record ∧
     (onCancelledDuringSleep c7_state).stopSet = true ∧
     (onCancelledDuringSleep c7_state).output_lv = c7_state.output_lv) ∧
    ({ c7w_state with queue := ([] : List (Option String)) }.record = c7w_state.record ∧
     { c7w_state with queue := ([] : List (Option String)) }.stopSet = c7w_state.stopSet ∧
     { c7w_state with queue := ([] : List (Option String)) }.output_lv = c7w_state.output_lv) :=
  ⟨C7_amended.1 c7_state,
   C7_amended.2 c7w_fmt "adapter_a" (fun _ => true) true c7w_state
     { c7w_state with queue := [] } (by decide)⟩

/-! ## Claim C1 -/

/-- Claim C1: when the registered record for the target process id has status
`"running"` and a pid the OS reports alive (OS pids are nonzero, so the
Python truthiness test on the pid coincides with its presence), a second
`start_managed_process` call fails fast: it returns `(False, already-running
message)`, spawns nothing, and leaves the entire application state — in
particular the existing running record — untouched
(`process_manager.py:551-560`). -/
theorem C1_no_duplicate_launch (os : StartOS) (script ty name : String) (st : AppState)
    (process_id0 : Option String) (es : ManagedProcessState) (p : Nat)
    (hlook : lookupProc st.managed_processes (processIdOf script process_id0) = some es)
    (hrun : es.status = "running") (hpid : es.pid = some p) (hp : 0 < p)
    (hlive : os.pid_exists p = true) :
    start_managed_process os script ty name st process_id0 =
      .ret false (some (alreadyRunningMsg name (processIdOf script process_id0))) st [] := by
  have hd : dupGuard os (lookupProc st.managed_processes (processIdOf script process_id0)) =
      true := by
    rw [hlook]
    simp [dupGuard, hrun, hpid, truthyPid, hlive]
    omega
  unfold start_managed_process
  simp only [hd]
  rfl

/-- Witness for claim C1: a registered running adapter with live pid 41; the
second start call returns the failure and the unchanged state. -/
theorem C1_witness :
    start_managed_process c1w_os "a.py" "adapter" "Adapter A" c1w_app (some "adapter_a") =
      .ret false (some (alreadyRunningMsg "Adapter A"
        (processIdOf "a.py" (some "adapter_a")))) c1w_app [] :=
  C1_no_duplicate_launch c1w_os "a.py" "adapter" "Adapter A" c1w_app (some "adapter_a")
    (runningAdapterRec 2 3 41) 41 (by decide) rfl rfl (by decide) (by decide)

/-! ## Claim C5 -/

/-- Claim C5: stopping a running record sets its stop event, runs the
graceful-termination sequence — `terminate`, `wait(1.0)`, escalating to
`kill` exactly on timeout — marks the record `"stopped"` with handle and pid
cleared, and clears the stop event again before returning, so no stale
stop-requested flag survives into a future start
(`process_manager.py:171-201` with `_terminate_process_gracefully`,
`process_manager.py:80-116`).  Hypotheses: the record is registered and
running with a handle and a (nonzero) pid, its stop event is initially unset,
and the OS still reports the process alive to `handle.poll()`. -/
theorem C5_graceful_stop (os : StopOS) (process_id : String) (st : AppState)
    (ps : ManagedProcessState) (h p : Nat)
    (hlook : lookupProc st.managed_processes process_id = some ps)
    (_hstat : ps.status = "running") (hh : ps.process_handle = some h)
    (hp : ps.pid = some p) (hpz : 0 < p)
    (hpoll : os.poll_running = true)
    (hev : st.events ps.stop_event = false) :
    (stop_managed_process os process_id st).2 =
      [StopAction.set_stop_event, StopAction.terminate, StopAction.wait1] ++
        (if os.wait_times_out then [StopAction.kill] else []) ++
        [StopAction.clear_stop_event] ∧
    lookupProc (stop_managed_process os process_id st).1.managed_processes process_id =
      some { ps with status := "stopped", process_handle := none, pid := none } ∧
    (stop_managed_process os process_id st).1.events ps.stop_event = false := by
  have htg : terminateGracefully os ps.process_handle ps.pid =
      (if os.wait_times_out then (false, [.terminate, .wait1, .kill])
       else (true, [.terminate, .wait1])) := by
    unfold terminateGracefully
    rw [hh, hp]
    have h1 : (truthyRef (some h) && truthyPid (some p)) = true := by
      simp [truthyRef, truthyPid]
      omega
    rw [h1, if_pos rfl, hpoll, if_pos rfl]
  unfold stop_managed_process
  rw [hlook]
  dsimp only
  by_cases hmmc : process_id = "mmc" <;>
    cases hw : os.wait_times_out <;>
      refine ⟨?_, ?_, ?_⟩ <;>
        simp [hev, htg, hw, hmmc, lookupProc_insertProc, setEvent]

/-- Witness for claim C5: stopping the running adapter of the concrete
scenario (poll alive, wait succeeds). -/
theorem C5_witness :
    (stop_managed_process c5w_os "adapter_a" c5w_app).2 =
      [StopAction.set_stop_event, StopAction.terminate, StopAction.wait1] ++
        (if c5w_os.wait_times_out then [StopAction.kill] else []) ++
        [StopAction.clear_stop_event] ∧
    lookupProc (stop_managed_process c5w_os "adapter_a" c5w_app).1.managed_processes
        "adapter_a" =
      some { runningAdapterRec 2 3 41 with
             status := "stopped", process_handle := none, pid := none } ∧
    (stop_managed_process c5w_os "adapter_a" c5w_app).1.events
        (runningAdapterRec 2 3 41).stop_event = false :=
  C5_graceful_stop c5w_os "adapter_a" c5w_app (runningAdapterRec 2 3 41) 41 41
    (by decide) rfl rfl rfl (by decide) rfl rfl

/-! ## Claim C10 -/

/-- Claim C10: stopping the main process `"mmc"` (with a registered record)
additionally clears the global application stop event and the legacy
process fields, and replaces the whole main console view content with the
single stopped-marker entry — the displayed history is not preserved
(`process_manager.py:203-217`).  Stopping any other (adapter) process id
leaves the main console view, that record's own log view contents, and — as
long as the adapter's stop event is a different object than the global one —
the global stop event's value all unchanged. -/
theorem C10_mmc_stop_frame (os : StopOS) (st : AppState) :
    (∀ ps cs, lookupProc st.managed_processes "mmc" = some ps →
       st.output_list_view = some cs →
       (stop_managed_process os "mmc" st).1.output_list_view = some [mmcStoppedMarker] ∧
       (stop_managed_process os "mmc" st).1.events st.stop_event = false ∧
       (stop_managed_process os "mmc" st).1.bot_process = none ∧
       (stop_managed_process os "mmc" st).1.bot_pid = none) ∧
    (∀ process_id ps, process_id ≠ "mmc" →
       lookupProc st.managed_processes process_id = some ps →
       (stop_managed_process os process_id st).1.output_list_view = st.output_list_view ∧
       (lookupProc (stop_managed_process os process_id st).1.managed_processes
           process_id).map (fun r => r.output_list_view) = some ps.output_list_view ∧
       (ps.stop_event ≠ st.stop_event →
         (stop_managed_process os process_id st).1.events st.stop_event =
           st.events st.stop_event)) := by
  constructor
  · intro ps cs hlook hlv
    unfold stop_managed_process
    rw [hlook]
    dsimp only
    by_cases hev : st.events ps.stop_event = false <;>
      simp [hev, hlv, setEvent]
  · intro process_id ps hne hlook
    unfold stop_managed_process
    rw [hlook]
    dsimp only
    refine ⟨?_, ?_, ?_⟩
    · by_cases hev : st.events ps.stop_event = false <;> simp [hev, hne]
    · by_cases hev : st.events ps.stop_event = false <;>
        simp [hev, hne, lookupProc_insertProc]
    · intro hse
      have hse' : st.stop_event ≠ ps.stop_event := Ne.symm hse
      by_cases hev : st.events ps.stop_event = false <;>
        simp [hev, hne, setEvent, hse']

/-- Witness for claim C10: stopping `"mmc"` in the concrete two-process state
wipes the console view and clears the global event; stopping the adapter
preserves the main view, the adapter view, and the global event. -/
theorem C10_witness :
    ((stop_managed_process c5w_os "mmc" c5w_app).1.output_list_view =
       some [mmcStoppedMarker] ∧
     (stop_managed_process c5w_os "mmc" c5w_app).1.events c5w_app.stop_event = false ∧
     (stop_managed_process c5w_os "mmc" c5w_app).1.bot_process = none ∧
     (stop_managed_process c5w_os "mmc" c5w_app).1.bot_pid = none) ∧
    ((stop_managed_process c5w_os "adapter_a" c5w_app).1.output_list_view =
       c5w_app.output_list_view ∧
     (lookupProc (stop_managed_process c5w_os "adapter_a" c5w_app).1.managed_processes
         "adapter_a").map (fun r => r.output_list_view) =
       some (runningAdapterRec 2 3 41).output_list_view ∧
     ((runningAdapterRec 2 3 41).stop_event ≠ c5w_app.stop_event →
       (stop_managed_process c5w_os "adapter_a" c5w_app).1.events c5w_app.stop_event =
         c5w_app.events c5w_app.stop_event)) :=
  ⟨(C10_mmc_stop_frame c5w_os c5w_app).1
      { c4_prev with status := "running", pid := some 50, process_handle := some 50 }
      [Entry.styled ["old line"]] (by decide) rfl,
   (C10_mmc_stop_frame c5w_os c5w_app).2 "adapter_a" (runningAdapterRec 2 3 41)
      (by decide) (by decide)⟩

/-! ## Claim C8 -/

/-- Claim C8 counterexample: the claim asserts that for an invalid
configuration the record for the process id is left with status `"error"`.
On the missing-script path (`process_manager.py:567-571`) the function
returns BEFORE any record is created or updated: starting a never-registered
id with a missing script returns `(False, message)` and launches nothing,
but afterwards there is still no record at all for that id — in particular no
record with status `"error"`. -/
theorem C8_counterexample :
    startSuccess c8_result = some false ∧
    startActs c8_result = [] ∧
    lookupProc (startState c8_result).managed_processes "m" = none := by
  decide

/-- Claim C8 as amended: both invalid-configuration cases return `(False,
message)` synchronously and launch no OS process, but they differ on the
record.  Missing script: the whole state — including the registry — is
returned unchanged, so no record is created or moved to `"error"`.  Missing
or invalid interpreter path: the freshly registered record for the process id
is left with status `"error"`, pid and handle cleared. -/
theorem C8_amended (os : StartOS) (script ty name : String) (st : AppState)
    (process_id0 : Option String)
    (hd : dupGuard os (lookupProc st.managed_processes (processIdOf script process_id0)) =
      false) :
    (os.path_exists (resolvePath st.script_dir script) = false →
       start_managed_process os script ty name st process_id0 =
         .ret false (some (missingScriptMsg script)) st []) ∧
    (os.path_exists (resolvePath st.script_dir script) = true →
       interpOf os st.python_path = none →
       startSuccess (start_managed_process os script ty name st process_id0) = some false ∧
       startMessage (start_managed_process os script ty name st process_id0) =
         some noInterpreterMsg ∧
       startActs (start_managed_process os script ty name st process_id0) = [] ∧
       (∃ r, lookupProc (startState (start_managed_process os script ty name st
            process_id0)).managed_processes (processIdOf script process_id0) = some r ∧
          r.status = "error" ∧ r.pid = none ∧ r.process_handle = none)) := by
  constructor
  · intro hpath
    unfold start_managed_process
    simp [hd, hpath]
  · intro hpath hinterp
    unfold start_managed_process
    simp only [hd, hpath, hinterp, Bool.false_eq_true, if_false, Bool.not_true,
      Bool.true_eq_false]
    by_cases hty : ty = "mmc" <;>
      simp only [hty, if_true, if_false, startSuccess, startMessage, startActs, startState] <;>
      refine ⟨trivial, trivial, trivial, ?_⟩ <;>
      refine ⟨_, lookupProc_insertProc _ _ _, ?_⟩ <;>
      split <;> simp

/-- Witness for the amended claim C8: the missing-script call on an empty
registry returns the unchanged state; the missing-interpreter call registers
an `"error"` record. -/
theorem C8_amended_witness :
    (start_managed_process c8_os "missing.py" "adapter" "M" c8_app (some "m") =
       .ret false (some (missingScriptMsg "missing.py")) c8_app []) ∧
    (startSuccess (start_managed_process c8w_os "missing.py" "adapter" "M" c8_app
        (some "m")) = some false ∧
     startMessage (start_managed_process c8w_os "missing.py" "adapter" "M" c8_app
        (some "m")) = some noInterpreterMsg ∧
     startActs (start_managed_process c8w_os "missing.py" "adapter" "M" c8_app
        (some "m")) = [] ∧
     (∃ r, lookupProc (startState (start_managed_process c8w_os "missing.py" "adapter" "M"
          c8_app (some "m"))).managed_processes (processIdOf "missing.py" (some "m")) =
            some r ∧
        r.status = "error" ∧ r.pid = none ∧ r.process_handle = none)) :=
  ⟨(C8_amended c8_os "missing.py" "adapter" "M" c8_app (some "m") (by decide)).1 rfl,
   (C8_amended c8w_os "missing.py" "adapter" "M" c8_app (some "m") (by decide)).2 rfl rfl⟩

/-! ## Claim C4 -/

/-- Once a start call passes the duplicate guard and the script check, it
registers a record whose channels are: for the main bot the app-state
singleton queue / event ids, otherwise the two freshly allocated ids —
regardless of which of the three remaining outcomes (interpreter error,
successful spawn, spawn failure) the call takes. -/
theorem start_registered_channels (os : StartOS) (script ty name : String) (st : AppState)
    (process_id0 : Option String)
    (hd : dupGuard os (lookupProc st.managed_processes (processIdOf script process_id0)) =
      false)
    (hpath : os.path_exists (resolvePath st.script_dir script) = true) :
    ∃ r, lookupProc (startState (start_managed_process os script ty name st
        process_id0)).managed_processes (processIdOf script process_id0) = some r ∧
      r.output_queue = (if ty = "mmc" then st.output_queue else st.next_obj) ∧
      r.stop_event = (if ty = "mmc" then st.stop_event else st.next_obj + 1) := by
  unfold start_managed_process
  simp only [hd, Bool.false_eq_true, if_false, hpath, Bool.not_true]
  cases hi : interpOf os st.python_path with
  | none =>
    simp only [hi, startState]
    split <;>
      exact ⟨_, lookupProc_insertProc _ _ _, by split <;> rfl, by split <;> rfl⟩
  | some pp =>
    by_cases hs : os.spawn_ok = true
    · simp only [hi, hs, if_true, startState]
      split <;>
        exact ⟨_, lookupProc_insertProc _ _ _, by split <;> rfl, by split <;> rfl⟩
    · simp only [Bool.not_eq_true] at hs
      simp only [hi, hs, Bool.false_eq_true, if_false, startState]
      exact ⟨_, lookupProc_insertProc _ _ _, by split <;> rfl, by split <;> rfl⟩

/-- Claim C4 counterexample: the claim asserts that EVERY successful start —
including the main `"mmc"` process — equips the new record with a freshly
created queue and stop event, never the objects of a previous run.  For the
main bot the source reuses the app-state singletons
(`process_manager.py:588-589`): restarting `"mmc"` over a stopped previous
record yields a successful start whose new record holds exactly the previous
record's queue object (id 0) and event object (id 1), which are the app-state
singletons. -/
theorem C4_counterexample :
    startSuccess c4_result = some true ∧
    (lookupProc (startState c4_result).managed_processes "mmc").map
      (fun r => r.output_queue) = some c4_prev.output_queue ∧
    (lookupProc (startState c4_result).managed_processes "mmc").map
      (fun r => r.stop_event) = some c4_prev.stop_event ∧
    c4_prev.output_queue = c4_app.output_queue ∧
    c4_prev.stop_event = c4_app.stop_event := by
  decide

/-- Claim C4 as amended: adapter starts (type other than `"mmc"`) do create
fresh channels — the registered record's queue and event ids are the two
fresh allocator values, distinct from the app singletons and from every id
stored in any existing record (under the allocator invariant `idsBound`).
The main `"mmc"` process instead reuses the app-state singleton queue and
stop event on every run (the stale stop flag is cleared at
`process_manager.py:584-586`, but the objects themselves — including any
stale sentinel left in the singleton queue — are reused). -/
theorem C4_amended (os : StartOS) (script ty name : String) (st : AppState)
    (process_id0 : Option String)
    (hd : dupGuard os (lookupProc st.managed_processes (processIdOf script process_id0)) =
      false)
    (hpath : os.path_exists (resolvePath st.script_dir script) = true) :
    (ty ≠ "mmc" →
      ∃ r, lookupProc (startState (start_managed_process os script ty name st
          process_id0)).managed_processes (processIdOf script process_id0) = some r ∧
        r.output_queue = st.next_obj ∧ r.stop_event = st.next_obj + 1 ∧
        (idsBound st →
          r.output_queue ≠ st.output_queue ∧ r.stop_event ≠ st.stop_event ∧
          ∀ kr ∈ st.managed_processes,
            r.output_queue ≠ kr.2.output_queue ∧ r.output_queue ≠ kr.2.stop_event ∧
            r.stop_event ≠ kr.2.output_queue ∧ r.stop_event ≠ kr.2.stop_event)) ∧
    (ty = "mmc" →
      ∃ r, lookupProc (startState (start_managed_process os script ty name st
          process_id0)).managed_processes (processIdOf script process_id0) = some r ∧
        r.output_queue = st.output_queue ∧ r.stop_event = st.stop_event) := by
  obtain ⟨r, hr, hq, he⟩ :=
    start_registered_channels os script ty name st process_id0 hd hpath
  constructor
  · intro hty
    rw [if_neg hty] at hq
    rw [if_neg hty] at he
    refine ⟨r, hr, hq, he, ?_⟩
    intro hb
    obtain ⟨h1, h2, h3⟩ := hb
    refine ⟨by omega, by omega, ?_⟩
    intro kr hkr
    have h4 := h3 kr hkr
    exact ⟨by omega, by omega, by omega, by omega⟩
  · intro hty
    rw [if_pos hty] at hq
    rw [if_pos hty] at he
    exact ⟨r, hr, hq, he⟩

/-- Witness for the amended claim C4: an adapter start on the concrete empty
registry gets the fresh ids 2 and 3; the `"mmc"` restart of the
counterexample state gets the singleton ids 0 and 1. -/
theorem C4_amended_witness :
    ((("adapter" : String) ≠ "mmc" →
      ∃ r, lookupProc (startState (start_managed_process c4_os "a.py" "adapter" "A" c4w_app
          (some "adapter_a"))).managed_processes (processIdOf "a.py" (some "adapter_a")) =
            some r ∧
        r.output_queue = c4w_app.next_obj ∧ r.stop_event = c4w_app.next_obj + 1 ∧
        (idsBound c4w_app →
          r.output_queue ≠ c4w_app.output_queue ∧ r.stop_event ≠ c4w_app.stop_event ∧
          ∀ kr ∈ c4w_app.managed_processes,
            r.output_queue ≠ kr.2.output_queue ∧ r.output_queue ≠ kr.2.stop_event ∧
            r.stop_event ≠ kr.2.output_queue ∧ r.stop_event ≠ kr.2.stop_event))) ∧
    ((("mmc" : String) = "mmc" →
      ∃ r, lookupProc (startState (start_managed_process c4_os "bot.py" "mmc" "MaiCore"
          c4_app (some "mmc"))).managed_processes (processIdOf "bot.py" (some "mmc")) =
            some r ∧
        r.output_queue = c4_app.output_queue ∧ r.stop_event = c4_app.stop_event)) :=
  ⟨(C4_amended c4_os "a.py" "adapter" "A" c4w_app (some "adapter_a")
      (by decide) (by decide)).1,
   (C4_amended c4_os "bot.py" "mmc" "MaiCore" c4_app (some "mmc")
      (by decide) (by decide)).2⟩
